import Mathlib

/- Verification of the Toyota x Capital One vehicle affordability and value
forecasting platform: a shallow embedding of the React frontend components
found under the repository sources, together with models of the analytics
core taken from the design document where the backend implementation is not
among the sources. Monetary and score values are embedded as rationals. -/

namespace ToyotaCO

/-! ## A model of the JavaScript string and number handling the forms use -/

/-- Numeric value of a decimal digit character. -/
def digitVal (c : Char) : ℕ := c.toNat - 48

/-- Value of a string of decimal digits, most significant first. -/
def parseNatDigits (cs : List Char) : ℕ :=
  cs.foldl (fun a c => 10 * a + digitVal c) 0

/-- Characters of the integer part of a numeral: everything before the first
dot. -/
def takeUntilDot : List Char → List Char
  | [] => []
  | c :: cs => if c = '.' then [] else c :: takeUntilDot cs

/-- Characters of the fractional part of a numeral: everything after the
first dot. -/
def dropThroughDot : List Char → List Char
  | [] => []
  | c :: cs => if c = '.' then cs else dropThroughDot cs

/-- JavaScript parseFloat restricted to the strings an HTML number input can
hold: a decimal numeral with an optional fractional part. -/
def parseFloatModel (s : String) : ℚ :=
  (parseNatDigits (takeUntilDot s.data) : ℚ) +
    (parseNatDigits (dropThroughDot s.data) : ℚ) / 10 ^ (dropThroughDot s.data).length

/-- JavaScript parseFloat with its NaN result on the empty string modelled
as none; an HTML number input reports the empty string when cleared or when
its text is not a number. -/
def parseFloatOpt (s : String) : Option ℚ :=
  if s = "" then none else some (parseFloatModel s)

/-! ## Scenario state and the ScenarioAdjustments card -/

/-- Scenario state held by App, with a JavaScript null represented as none. -/
structure Scenario where
  annual_miles : Option ℚ
  fuel_price_per_gallon : Option ℚ
  internship_length_months : Option ℚ
  interest_rate : Option ℚ
deriving DecidableEq

/-- The initial scenario state App creates. -/
def initialScenario : Scenario :=
  { annual_miles := some 12000
    fuel_price_per_gallon := some (7 / 2)
    internship_length_months := none
    interest_rate := none }

/-- The four named inputs of the ScenarioAdjustments card. -/
inductive ScenarioField where
  | annualMiles
  | fuelPrice
  | internshipMonths
  | interestRate
deriving DecidableEq

/-- Read the scenario field an input is bound to. -/
def Scenario.getField (sc : Scenario) : ScenarioField → Option ℚ
  | .annualMiles => sc.annual_miles
  | .fuelPrice => sc.fuel_price_per_gallon
  | .internshipMonths => sc.internship_length_months
  | .interestRate => sc.interest_rate

/-- The value handleChange in ScenarioAdjustments stores for the raw input
string: parseFloat of the string when the string is truthy, else null. A
JavaScript string is truthy exactly when it is non-empty, so the branch on
the raw string keeps every non-empty input, the numeral 0 included. -/
def scenarioFieldParse (value : String) : Option ℚ :=
  if value = "" then none else some (parseFloatModel value)

/-- handleChange in ScenarioAdjustments: spread the previous scenario and
overwrite the edited field with the parsed value. -/
def scenarioHandleChange (sc : Scenario) (f : ScenarioField) (value : String) : Scenario :=
  match f with
  | .annualMiles => { sc with annual_miles := scenarioFieldParse value }
  | .fuelPrice => { sc with fuel_price_per_gallon := scenarioFieldParse value }
  | .internshipMonths => { sc with internship_length_months := scenarioFieldParse value }
  | .interestRate => { sc with interest_rate := scenarioFieldParse value }

/-! ## Financial profile state and the FinancialProfileForm card -/

/-- Financial profile state held by FinancialProfileForm. -/
structure FinancialProfile where
  credit_score : ℚ
  annual_income : ℚ
  monthly_budget : ℚ
  lease_term_months : ℚ
  salary : ℚ
  employment_subsidies : ℚ
  transportation_subsidy : ℚ
deriving DecidableEq

/-- The seven named inputs of the FinancialProfileForm card. -/
inductive ProfileField where
  | creditScore
  | annualIncome
  | monthlyBudget
  | leaseTermMonths
  | salaryField
  | employmentSubsidies
  | transportationSubsidy
deriving DecidableEq

/-- The JavaScript expression parseFloat(value) or-else 0 used by
FinancialProfileForm.handleChange: a NaN parse and a parsed 0 both yield 0. -/
def parseFloatOrZero (value : String) : ℚ :=
  match parseFloatOpt value with
  | none => 0
  | some q => if q = 0 then 0 else q

/-- Overwrite the profile field an input is bound to. -/
def FinancialProfile.setField (p : FinancialProfile) : ProfileField → ℚ → FinancialProfile
  | .creditScore, v => { p with credit_score := v }
  | .annualIncome, v => { p with annual_income := v }
  | .monthlyBudget, v => { p with monthly_budget := v }
  | .leaseTermMonths, v => { p with lease_term_months := v }
  | .salaryField, v => { p with salary := v }
  | .employmentSubsidies, v => { p with employment_subsidies := v }
  | .transportationSubsidy, v => { p with transportation_subsidy := v }

/-- Outcome of one change event on the profile form: the new form data and
whether onSubmit was invoked with it. -/
structure ProfileChange where
  newData : FinancialProfile
  submitted : Bool
deriving DecidableEq

/-- handleChange in FinancialProfileForm: coerce the raw input with
parseFloat-or-zero, store it, and hand the new profile to onSubmit
unconditionally. -/
def profileHandleChange (p : FinancialProfile) (f : ProfileField) (value : String) :
    ProfileChange :=
  { newData := p.setField f (parseFloatOrZero value), submitted := true }

/-! ## The model catalog and the VehiclePreferencesForm card -/

/-- One entry of the model catalog the frontend fetches: a model name and
its trim collection. -/
structure ModelInfo where
  name : String
  trims : List String
deriving DecidableEq

/-- Modelled from the spec: the backend list_models operation (the
api/toyota-models route is not among the repository sources under src); per
the spec it reads the ReferenceCatalog and returns the ordered sequence of
records each exposing a name and its set of trim strings. -/
def list_models (catalog : List ModelInfo) : List ModelInfo := catalog

/-- models.find in VehiclePreferencesForm: the first catalog entry whose
name is the selected model. -/
def findModel (models : List ModelInfo) (n : String) : Option ModelInfo :=
  models.find? (fun m => m.name == n)

/-- Trim options offered for a model name: the trims of the catalog entry of
that name, or none when the name resolves to no entry. -/
def trimsOf (models : List ModelInfo) (n : String) : List String :=
  match findModel models n with
  | some m => m.trims
  | none => []

/-- The model and trim selections of VehiclePreferencesForm; the empty
string is the Select placeholder. -/
structure PrefsFormState where
  model : String
  trim : String
deriving DecidableEq

/-- The initial state of VehiclePreferencesForm. -/
def initPrefsForm : PrefsFormState := { model := "", trim := "" }

/-- A change event on the two selects of VehiclePreferencesForm. -/
inductive PrefsEvent where
  | selectModel (m : String)
  | selectTrim (t : String)

/-- handleChange in VehiclePreferencesForm: a model change overwrites the
model and resets the trim to the empty placeholder; a trim change overwrites
only the trim. -/
def prefsStep (s : PrefsFormState) : PrefsEvent → PrefsFormState
  | .selectModel m => { model := m, trim := "" }
  | .selectTrim t => { s with trim := t }

/-- The form auto-submits a vehicle configuration exactly when the model
field is truthy, that is non-empty. -/
def prefsSubmits (s : PrefsFormState) : Bool := s.model ≠ ""

/-- Form states reachable through the rendered interface: the model select
offers the catalog names and the placeholder; the trim select is rendered
only when a model is chosen and offers the trims of that model and the
placeholder. -/
inductive PrefsReachable (models : List ModelInfo) : PrefsFormState → Prop where
  | init : PrefsReachable models initPrefsForm
  | selectModel {s : PrefsFormState} {m : String} :
      PrefsReachable models s →
      (m = "" ∨ m ∈ models.map ModelInfo.name) →
      PrefsReachable models (prefsStep s (.selectModel m))
  | selectTrim {s : PrefsFormState} {t : String} :
      PrefsReachable models s →
      s.model ≠ "" →
      (t = "" ∨ t ∈ trimsOf models s.model) →
      PrefsReachable models (prefsStep s (.selectTrim t))

/-- A concrete catalog used to instantiate the form theorems. -/
def camryCatalog : List ModelInfo :=
  [{ name := "Camry", trims := ["LE", "SE", "XLE"] }]

/-! ## The requests App issues -/

/-- Vehicle preferences submitted by VehiclePreferencesForm. -/
structure VehiclePreferences where
  make : String
  model : String
  trim : String
  max_price : Option ℚ
  preferred_fuel_type : String
deriving DecidableEq

/-- Body of the forecast-value request issued by handleCalculate in App. -/
structure ForecastRequest where
  preferences : VehiclePreferences
  scenario : Scenario
  years_ahead : ℕ
deriving DecidableEq

/-- handleCalculate in App: the forecast-value request body carries the
literal horizon 5; no user-controlled state feeds that field. -/
def forecastRequest (prefs : VehiclePreferences) (sc : Scenario) : ForecastRequest :=
  { preferences := prefs, scenario := sc, years_ahead := 5 }

/-! ## Scenario defaults of the core -/

/-- Modelled from the spec: the default annual mileage the core uses when
the field is omitted (the backend scenario handling is not among the
repository sources under src). -/
def defaultAnnualMiles : ℚ := 12000

/-- Modelled from the spec: the default fuel price per gallon the core uses
when the field is omitted. -/
def defaultFuelPrice : ℚ := 7 / 2

/-- A scenario after the core applies its defaults. -/
structure ResolvedScenario where
  annual_miles : ℚ
  fuel_price_per_gallon : ℚ
  internship_length_months : Option ℚ
  interest_rate : ℚ
deriving DecidableEq

/-- Modelled from the spec: the core fills an omitted annual_miles with
12000, an omitted fuel_price_per_gallon with 3.50 and an omitted
interest_rate with the credit-tier default rate, while
internship_length_months stays optional. -/
def resolveScenario (tierDefaultRate : ℚ) (sc : Scenario) : ResolvedScenario :=
  { annual_miles := sc.annual_miles.getD defaultAnnualMiles
    fuel_price_per_gallon := sc.fuel_price_per_gallon.getD defaultFuelPrice
    internship_length_months := sc.internship_length_months
    interest_rate := sc.interest_rate.getD tierDefaultRate }

/-- Modelled from the spec: internship_length_months optionally shortens the
effective forecast horizon; a null value means no truncation. -/
def effectiveHorizon (yearsAhead : ℕ) : Option ℚ → ℕ
  | none => yearsAhead
  | some m => min yearsAhead ⌈m / 12⌉₊

/-! ## The CostCalculator -/

/-- The scalar inputs the CostCalculator consumes for one configuration:
price and down payment, the lease term, the resolved APR, the catalog
insurance and maintenance constants, the credit multiplier, the mileage and
fuel figures and the tax constants. -/
structure CostInputs where
  price : ℚ
  down_payment : ℚ
  lease_term_months : ℕ
  apr : ℚ
  base_insurance : ℚ
  credit_multiplier : ℚ
  annual_miles : ℚ
  mpg : ℚ
  fuel_price : ℚ
  maintenance_rate : ℚ
  sales_tax_rate : ℚ
  fixed_monthly_fees : ℚ
deriving DecidableEq

/-- Modelled from the spec: standard amortization of price minus down
payment over the lease term at the resolved APR (the CostCalculator itself
is not among the repository sources under src); a zero monthly rate
amortizes linearly. -/
def monthlyPayment (ci : CostInputs) : ℚ :=
  let principal := ci.price - ci.down_payment
  let r := ci.apr / 12
  if r = 0 then principal / ci.lease_term_months
  else principal * r * (1 + r) ^ ci.lease_term_months / ((1 + r) ^ ci.lease_term_months - 1)

/-- Modelled from the spec: insurance is the model base rate scaled by the
credit-score multiplier. -/
def insuranceCost (ci : CostInputs) : ℚ := ci.base_insurance * ci.credit_multiplier

/-- Modelled from the spec: monthly fuel is annual miles over MPG, times the
fuel price, over 12. -/
def fuelCost (ci : CostInputs) : ℚ := ci.annual_miles / ci.mpg * ci.fuel_price / 12

/-- Modelled from the spec: monthly maintenance is price times the annual
maintenance rate, over 12. -/
def maintenanceCost (ci : CostInputs) : ℚ := ci.price * ci.maintenance_rate / 12

/-- Modelled from the spec: monthly taxes and fees are price times the sales
tax rate spread over the lease term, plus fixed monthly fees. -/
def taxesAndFeesCost (ci : CostInputs) : ℚ :=
  ci.price * ci.sales_tax_rate / ci.lease_term_months + ci.fixed_monthly_fees

/-- The five cost components and their total, named as the frontend reads
them from the cost_breakdown object. -/
structure CostBreakdown where
  monthly_payment : ℚ
  insurance : ℚ
  fuel : ℚ
  maintenance : ℚ
  taxes_and_fees : ℚ
  total : ℚ
deriving DecidableEq

/-- Modelled from the spec: the CostCalculator assembles the five components
and totals them. -/
def calculateBreakdown (ci : CostInputs) : CostBreakdown :=
  let mp := monthlyPayment ci
  let ins := insuranceCost ci
  let fu := fuelCost ci
  let ma := maintenanceCost ci
  let tf := taxesAndFeesCost ci
  { monthly_payment := mp, insurance := ins, fuel := fu, maintenance := ma,
    taxes_and_fees := tf, total := mp + ins + fu + ma + tf }

/-! ## The ValueForecaster -/

/-- One point of the forecast curve as the chart reads it. -/
structure ForecastPoint where
  year : ℕ
  adjusted_value : ℚ
  depreciation : ℚ
deriving DecidableEq

/-- The optimistic and pessimistic bands of a forecast. -/
structure ForecastScenarios where
  optimistic : List ℚ
  pessimistic : List ℚ
deriving DecidableEq

/-- The forecast result as the chart reads it. -/
structure ForecastResult where
  initial_value : ℚ
  final_value : ℚ
  forecast_curve : List ForecastPoint
  scenarios : ForecastScenarios
deriving DecidableEq

/-- Modelled from the spec: the year-by-year adjusted value, each year
scaled by one minus that year's effective depreciation rate and floored at
the residual-value floor (the ValueForecaster is not among the repository
sources under src). -/
def adjustedValue (initial residualFloor : ℚ) (effectiveRate : ℕ → ℚ) : ℕ → ℚ
  | 0 => initial
  | y + 1 =>
    max residualFloor (adjustedValue initial residualFloor effectiveRate y * (1 - effectiveRate (y + 1)))

/-- Modelled from the spec: the forecast result is the curve of years 0 to
yearsAhead with cumulative depreciation, plus the optimistic and pessimistic
bands obtained by scaling each point by one plus, respectively minus, that
year's band width. -/
def forecast (initial residualFloor : ℚ) (effectiveRate bandWidth : ℕ → ℚ)
    (yearsAhead : ℕ) : ForecastResult :=
  let av := adjustedValue initial residualFloor effectiveRate
  { initial_value := initial
    final_value := av yearsAhead
    forecast_curve := (List.range (yearsAhead + 1)).map fun y =>
      { year := y, adjusted_value := av y, depreciation := initial - av y }
    scenarios :=
      { optimistic := (List.range (yearsAhead + 1)).map fun y => av y * (1 + bandWidth y)
        pessimistic := (List.range (yearsAhead + 1)).map fun y => av y * (1 - bandWidth y) } }

/-! ## The AffordabilityIndex rating and its frontend consumers -/

/-- Modelled from the spec: the qualitative rating bucket of an overall
score (the AffordabilityIndex scorer is not among the repository sources
under src; its fixed thresholds are). -/
def ratingOf (score : ℚ) : String :=
  if score ≥ 90 then "Excellent"
  else if score ≥ 75 then "Good"
  else if score ≥ 60 then "Fair"
  else if score ≥ 40 then "Poor"
  else "Very Poor"

/-- Modelled from the spec: the canned recommendation string attached to a
score, chosen by the same fixed thresholds as the rating. -/
def recommendationOf (score : ℚ) : String :=
  if score ≥ 90 then "Outstanding fit for your budget."
  else if score ≥ 75 then "A good fit for your finances."
  else if score ≥ 60 then "Manageable, but leaves little slack."
  else if score ≥ 40 then "This vehicle would strain your budget."
  else "Not affordable on your current profile."

/-- The canned recommendation string of each rating bucket. -/
def recommendationOfRating : String → String
  | "Excellent" => "Outstanding fit for your budget."
  | "Good" => "A good fit for your finances."
  | "Fair" => "Manageable, but leaves little slack."
  | "Poor" => "This vehicle would strain your budget."
  | _ => "Not affordable on your current profile."

/-- getScoreColor in the AffordabilityIndex component: the display color of
a score, bucketed by the same thresholds. -/
def getScoreColor (score : ℚ) : String :=
  if score ≥ 90 then "#4caf50"
  else if score ≥ 75 then "#8bc34a"
  else if score ≥ 60 then "#ffc107"
  else if score ≥ 40 then "#ff9800"
  else "#f44336"

/-- The display color of each rating bucket. -/
def colorOfRating : String → String
  | "Excellent" => "#4caf50"
  | "Good" => "#8bc34a"
  | "Fair" => "#ffc107"
  | "Poor" => "#ff9800"
  | _ => "#f44336"

/-! ## The RecommendationEngine ordering -/

/-- One recommendation entry with the fields the Recommendations component
renders and the ordering uses. -/
structure RecommendationEntry where
  model : String
  trim : String
  price : ℚ
  monthly_payment : ℚ
  overall_score : ℚ
  personal_percentage_match : ℚ
  reliability_score : ℚ
  apr : ℚ
deriving DecidableEq

/-- Modelled from the spec: the deterministic order of the
RecommendationEngine output, descending by overall score with ties broken by
ascending price and then by lexicographic model name. -/
def recBefore (a b : RecommendationEntry) : Prop :=
  b.overall_score < a.overall_score ∨
    (a.overall_score = b.overall_score ∧
      (a.price < b.price ∨ (a.price = b.price ∧ a.model ≤ b.model)))

/-- Sort key realizing recBefore as a lexicographic linear order. -/
def recKey (e : RecommendationEntry) : ℚ ×ₗ (ℚ ×ₗ String) :=
  toLex (-e.overall_score, toLex (e.price, e.model))

theorem recBefore_iff_key (a b : RecommendationEntry) :
    recBefore a b ↔ recKey a ≤ recKey b := by
  simp only [recBefore, recKey, Prod.Lex.le_iff, neg_lt_neg_iff, neg_inj]

instance : DecidableRel recBefore :=
  fun a b => decidable_of_iff _ (recBefore_iff_key a b).symm

instance : IsTrans RecommendationEntry recBefore :=
  ⟨fun a b c h1 h2 => (recBefore_iff_key a c).mpr
    (le_trans ((recBefore_iff_key a b).mp h1) ((recBefore_iff_key b c).mp h2))⟩

instance : IsTotal RecommendationEntry recBefore :=
  ⟨fun a b => (le_total (recKey a) (recKey b)).imp
    (recBefore_iff_key a b).mpr (recBefore_iff_key b a).mpr⟩

/-- Modelled from the spec: the RecommendationEngine sorts the scored
candidate entries with the deterministic order and truncates to the top 10
(the engine is not among the repository sources under src; candidate scoring
is taken as the input entry list). -/
def recommend (entries : List RecommendationEntry) : List RecommendationEntry :=
  (List.insertionSort recBefore entries).take 10

/-! ## Theorems -/

/-- Claim C1: every CostCalculator breakdown has its five components
nonnegative, given inputs inside their documented ranges, and its total
field equal to the sum of the five components. -/
theorem cost_breakdown_nonneg_and_total (ci : CostInputs)
    (hdp : 0 ≤ ci.down_payment) (hpd : ci.down_payment ≤ ci.price)
    (hn : 1 ≤ ci.lease_term_months) (hapr : 0 ≤ ci.apr)
    (hbi : 0 ≤ ci.base_insurance) (hcm : 0 ≤ ci.credit_multiplier)
    (ham : 0 ≤ ci.annual_miles) (hmpg : 0 < ci.mpg) (hfp : 0 ≤ ci.fuel_price)
    (hmr : 0 ≤ ci.maintenance_rate) (hst : 0 ≤ ci.sales_tax_rate)
    (hff : 0 ≤ ci.fixed_monthly_fees) :
    0 ≤ (calculateBreakdown ci).monthly_payment ∧
    0 ≤ (calculateBreakdown ci).insurance ∧
    0 ≤ (calculateBreakdown ci).fuel ∧
    0 ≤ (calculateBreakdown ci).maintenance ∧
    0 ≤ (calculateBreakdown ci).taxes_and_fees ∧
    (calculateBreakdown ci).total =
      (calculateBreakdown ci).monthly_payment + (calculateBreakdown ci).insurance +
        (calculateBreakdown ci).fuel + (calculateBreakdown ci).maintenance +
        (calculateBreakdown ci).taxes_and_fees := by
  have hprin : 0 ≤ ci.price - ci.down_payment := sub_nonneg.mpr hpd
  have hp0 : 0 ≤ ci.price := le_trans hdp hpd
  have hmp : 0 ≤ monthlyPayment ci := by
    unfold monthlyPayment
    by_cases hr : ci.apr / 12 = 0
    · rw [if_pos hr]
      exact div_nonneg hprin (Nat.cast_nonneg _)
    · rw [if_neg hr]
      have hr0 : 0 ≤ ci.apr / 12 := div_nonneg hapr (by norm_num)
      have hrpos : 0 < ci.apr / 12 := lt_of_le_of_ne hr0 (Ne.symm hr)
      have hpow : 1 < (1 + ci.apr / 12) ^ ci.lease_term_months :=
        one_lt_pow₀ (by linarith) (by omega)
      apply div_nonneg
      · exact mul_nonneg (mul_nonneg hprin hr0) (pow_nonneg (by linarith) _)
      · linarith
  refine ⟨hmp, mul_nonneg hbi hcm, ?_, ?_, ?_, rfl⟩
  · exact div_nonneg (mul_nonneg (div_nonneg ham hmpg.le) hfp) (by norm_num)
  · exact div_nonneg (mul_nonneg hp0 hmr) (by norm_num)
  · exact add_nonneg (div_nonneg (mul_nonneg hp0 hst) (Nat.cast_nonneg _)) hff

/-- Witness for C1 at a concrete configuration: a 28000 price, no down
payment, a 36 month term at six percent APR and the default mileage and
fuel price. -/
theorem cost_breakdown_nonneg_and_total_witness :
    (0 : ℚ) ≤ 0 ∧
    0 ≤ (calculateBreakdown
      { price := 28000, down_payment := 0, lease_term_months := 36, apr := 6 / 100,
        base_insurance := 120, credit_multiplier := 1, annual_miles := 12000,
        mpg := 32, fuel_price := 7 / 2, maintenance_rate := 2 / 100,
        sales_tax_rate := 7 / 100, fixed_monthly_fees := 25 }).monthly_payment := by
  refine ⟨le_refl 0, ?_⟩
  exact (cost_breakdown_nonneg_and_total
    { price := 28000, down_payment := 0, lease_term_months := 36, apr := 6 / 100,
      base_insurance := 120, credit_multiplier := 1, annual_miles := 12000,
      mpg := 32, fuel_price := 7 / 2, maintenance_rate := 2 / 100,
      sales_tax_rate := 7 / 100, fixed_monthly_fees := 25 }
    (by norm_num) (by norm_num) (by norm_num) (by norm_num) (by norm_num)
    (by norm_num) (by norm_num) (by norm_num) (by norm_num) (by norm_num)
    (by norm_num) (by norm_num)).1

/-- Claim C2: a forecast over N years yields a curve of exactly N plus one
points whose years are 0 through N in order, and optimistic and pessimistic
band sequences of that same length. -/
theorem forecast_curve_lengths (initial residualFloor : ℚ)
    (effectiveRate bandWidth : ℕ → ℚ) (N : ℕ) :
    (forecast initial residualFloor effectiveRate bandWidth N).forecast_curve.length = N + 1 ∧
    (forecast initial residualFloor effectiveRate bandWidth N).forecast_curve.map
      ForecastPoint.year = List.range (N + 1) ∧
    (forecast initial residualFloor effectiveRate bandWidth N).scenarios.optimistic.length =
      (forecast initial residualFloor effectiveRate bandWidth N).forecast_curve.length ∧
    (forecast initial residualFloor effectiveRate bandWidth N).scenarios.pessimistic.length =
      (forecast initial residualFloor effectiveRate bandWidth N).forecast_curve.length := by
  refine ⟨?_, ?_, ?_, ?_⟩
  · simp [forecast]
  · simp only [forecast, List.map_map]
    have hcomp : (ForecastPoint.year ∘ fun y : ℕ =>
        ({ year := y, adjusted_value := adjustedValue initial residualFloor effectiveRate y,
           depreciation := initial - adjustedValue initial residualFloor effectiveRate y } :
          ForecastPoint)) = id := rfl
    rw [hcomp, List.map_id]
  · simp [forecast]
  · simp [forecast]

/-- Claim C3: the rating is determined from the overall score by the fixed
thresholds, exactly at the boundaries, each bucket carries one fixed
recommendation string, and the frontend score color (getScoreColor) buckets
scores by the same thresholds. -/
theorem rating_thresholds_exact :
    (∀ s : ℚ, 90 ≤ s ↔ ratingOf s = "Excellent") ∧
    (∀ s : ℚ, 75 ≤ s ∧ s < 90 ↔ ratingOf s = "Good") ∧
    (∀ s : ℚ, 60 ≤ s ∧ s < 75 ↔ ratingOf s = "Fair") ∧
    (∀ s : ℚ, 40 ≤ s ∧ s < 60 ↔ ratingOf s = "Poor") ∧
    (∀ s : ℚ, s < 40 ↔ ratingOf s = "Very Poor") ∧
    ratingOf 90 = "Excellent" ∧ ratingOf (89999 / 1000) = "Good" ∧
    (∀ s t : ℚ, ratingOf s = ratingOf t → recommendationOf s = recommendationOf t) ∧
    (∀ s : ℚ, recommendationOf s = recommendationOfRating (ratingOf s)) ∧
    (∀ s : ℚ, getScoreColor s = colorOfRating (ratingOf s)) := by
  have hrec : ∀ s : ℚ, recommendationOf s = recommendationOfRating (ratingOf s) := by
    intro s
    unfold recommendationOf ratingOf
    split_ifs <;> rfl
  have hcol : ∀ s : ℚ, getScoreColor s = colorOfRating (ratingOf s) := by
    intro s
    unfold getScoreColor ratingOf
    split_ifs <;> rfl
  refine ⟨?_, ?_, ?_, ?_, ?_, by norm_num [ratingOf], by norm_num [ratingOf],
    ?_, hrec, hcol⟩
  · intro s
    constructor
    · intro h
      unfold ratingOf
      rw [if_pos h]
    · intro h
      by_contra hc
      push_neg at hc
      unfold ratingOf at h
      rw [if_neg (by linarith)] at h
      split_ifs at h <;> exact absurd h (by decide)
  · intro s
    unfold ratingOf
    split_ifs with h1 h2 <;>
      constructor <;> intro hx <;>
        first
          | rfl
          | exact absurd hx (by decide)
          | (exact absurd hx.2 (by linarith))
          | (exact ⟨h2, by linarith⟩)
  · intro s
    unfold ratingOf
    split_ifs with h1 h2 h3 <;>
      constructor <;> intro hx <;>
        first
          | rfl
          | exact absurd hx (by decide)
          | (exact absurd hx.1 (by linarith))
          | (exact ⟨h3, by linarith⟩)
  · intro s
    unfold ratingOf
    split_ifs with h1 h2 h3 h4 <;>
      constructor <;> intro hx <;>
        first
          | rfl
          | exact absurd hx (by decide)
          | (exact absurd hx.1 (by linarith))
          | (exact ⟨h4, by linarith⟩)
  · intro s
    unfold ratingOf
    split_ifs with h1 h2 h3 h4 <;>
      constructor <;> intro hx <;>
        first
          | rfl
          | exact absurd hx (by decide)
          | (exact absurd hx (by linarith))
          | linarith
  · intro s t h
    rw [hrec, hrec, h]

/-- Witness for C3: a score of 92 is Excellent, a score of 80 is Good, and
two Excellent scores share the recommendation string. -/
theorem rating_thresholds_exact_witness :
    ((90 : ℚ) ≤ 92 ∧ ratingOf 92 = "Excellent") ∧
    ((75 : ℚ) ≤ 80 ∧ (80 : ℚ) < 90 ∧ ratingOf 80 = "Good") ∧
    (ratingOf 95 = ratingOf 92 ∧ recommendationOf 95 = recommendationOf 92) :=
  ⟨⟨by norm_num, (rating_thresholds_exact.1 92).mp (by norm_num)⟩,
    ⟨by norm_num, by norm_num, (rating_thresholds_exact.2.1 80).mp (by norm_num)⟩,
    ⟨by norm_num [ratingOf],
      rating_thresholds_exact.2.2.2.2.2.2.2.1 95 92 (by norm_num [ratingOf])⟩⟩

/-- Claim C4: the RecommendationEngine output has at most 10 entries, is
ordered by the deterministic descending order with its price and model name
tie-breaks, and in particular carries non-increasing overall scores. -/
theorem recommendations_sorted_truncated (entries : List RecommendationEntry) :
    (recommend entries).length ≤ 10 ∧
    (recommend entries).Pairwise recBefore ∧
    ((recommend entries).map RecommendationEntry.overall_score).Pairwise
      (fun a b => b ≤ a) := by
  have hsorted : (List.insertionSort recBefore entries).Pairwise recBefore :=
    List.sorted_insertionSort recBefore entries
  have htake : (recommend entries).Pairwise recBefore :=
    List.Pairwise.sublist (List.take_sublist 10 _) hsorted
  refine ⟨?_, htake, ?_⟩
  · have hlen : (recommend entries).length =
        min 10 (List.insertionSort recBefore entries).length := by
      simp [recommend]
    omega
  · refine List.Pairwise.map _ ?_ htake
    intro a b hab
    rcases hab with h | ⟨h, _⟩
    · exact le_of_lt h
    · exact le_of_eq h.symm

/-- Claim C5: an omitted scenario field resolves to its documented default:
12000 annual miles, 3.50 per gallon, the credit-tier default rate, and no
horizon truncation for a null internship length; the initial frontend
scenario state carries the same constants. -/
theorem scenario_defaults (tierDefaultRate : ℚ) (sc : Scenario) (N : ℕ) :
    (sc.annual_miles = none →
      (resolveScenario tierDefaultRate sc).annual_miles = 12000) ∧
    (sc.fuel_price_per_gallon = none →
      (resolveScenario tierDefaultRate sc).fuel_price_per_gallon = 7 / 2) ∧
    (sc.interest_rate = none →
      (resolveScenario tierDefaultRate sc).interest_rate = tierDefaultRate) ∧
    (sc.internship_length_months = none →
      effectiveHorizon N sc.internship_length_months = N) ∧
    initialScenario.annual_miles = some 12000 ∧
    initialScenario.fuel_price_per_gallon = some (7 / 2) ∧
    initialScenario.interest_rate = none ∧
    initialScenario.internship_length_months = none := by
  refine ⟨?_, ?_, ?_, ?_, rfl, rfl, rfl, rfl⟩ <;> intro h <;>
    simp [resolveScenario, effectiveHorizon, defaultAnnualMiles, defaultFuelPrice, h]

/-- Witness for C5 at the fully omitted scenario with a tier rate of 5 and
a horizon of 3 years. -/
theorem scenario_defaults_witness :
    (resolveScenario 5
      { annual_miles := none, fuel_price_per_gallon := none,
        internship_length_months := none, interest_rate := none }).annual_miles = 12000 ∧
    (resolveScenario 5
      { annual_miles := none, fuel_price_per_gallon := none,
        internship_length_months := none,
        interest_rate := none }).fuel_price_per_gallon = 7 / 2 ∧
    (resolveScenario 5
      { annual_miles := none, fuel_price_per_gallon := none,
        internship_length_months := none, interest_rate := none }).interest_rate = 5 ∧
    effectiveHorizon 3
      ({ annual_miles := none, fuel_price_per_gallon := none,
         internship_length_months := none,
         interest_rate := none } : Scenario).internship_length_months = 3 :=
  ⟨(scenario_defaults 5
      { annual_miles := none, fuel_price_per_gallon := none,
        internship_length_months := none, interest_rate := none } 3).1 rfl,
    (scenario_defaults 5
      { annual_miles := none, fuel_price_per_gallon := none,
        internship_length_months := none, interest_rate := none } 3).2.1 rfl,
    (scenario_defaults 5
      { annual_miles := none, fuel_price_per_gallon := none,
        internship_length_months := none, interest_rate := none } 3).2.2.1 rfl,
    (scenario_defaults 5
      { annual_miles := none, fuel_price_per_gallon := none,
        internship_length_months := none, interest_rate := none } 3).2.2.2.1 rfl⟩

/-- Counterexample to C6 as stated: right after the user picks the Camry
model, the form state is reachable, the form auto-submits a configuration
(the model field is truthy), and its trim is the empty placeholder, which is
not in the Camry trim set. -/
theorem trim_invariant_counterexample :
    PrefsReachable camryCatalog (prefsStep initPrefsForm (.selectModel "Camry")) ∧
    prefsSubmits (prefsStep initPrefsForm (.selectModel "Camry")) = true ∧
    (prefsStep initPrefsForm (.selectModel "Camry")).trim ∉
      trimsOf camryCatalog (prefsStep initPrefsForm (.selectModel "Camry")).model :=
  ⟨PrefsReachable.selectModel PrefsReachable.init (Or.inr (by decide)),
    by decide, by decide⟩

/-- Claim C6 as amended: every reachable form state has a trim that is
either the empty placeholder or a member of the selected model's trim set,
and changing the model always resets the trim to the empty placeholder,
invalidating any previously selected trim. -/
theorem prefs_trim_invariant (models : List ModelInfo) (s : PrefsFormState)
    (h : PrefsReachable models s) :
    (s.trim = "" ∨ s.trim ∈ trimsOf models s.model) ∧
    (∀ m : String, (prefsStep s (.selectModel m)).trim = "") := by
  constructor
  · induction h with
    | init => exact Or.inl rfl
    | selectModel hs hm => exact Or.inl rfl
    | selectTrim hs hmodel ht => exact ht
  · intro m
    rfl

/-- Witness for C6 as amended: the reachable state where the user picked the
Camry model and then its LE trim. -/
theorem prefs_trim_invariant_witness :
    ((prefsStep (prefsStep initPrefsForm (.selectModel "Camry")) (.selectTrim "LE")).trim
        = "" ∨
      (prefsStep (prefsStep initPrefsForm (.selectModel "Camry"))
          (.selectTrim "LE")).trim ∈
        trimsOf camryCatalog
          (prefsStep (prefsStep initPrefsForm (.selectModel "Camry"))
            (.selectTrim "LE")).model) :=
  (prefs_trim_invariant camryCatalog _
    (PrefsReachable.selectTrim
      (PrefsReachable.selectModel PrefsReachable.init (Or.inr (by decide)))
      (by decide) (Or.inr (by decide)))).1

/-- Claim C7: the list_models output is the ordered catalog itself, and the
consumer's find by name resolves to an entry of it that exposes the looked
up name together with its trim collection. -/
theorem list_models_shape (catalog : List ModelInfo) (n : String) (m : ModelInfo)
    (h : findModel (list_models catalog) n = some m) :
    m.name = n ∧ m ∈ list_models catalog ∧ list_models catalog = catalog := by
  refine ⟨?_, List.mem_of_find?_eq_some h, rfl⟩
  have := List.find?_some h
  simpa using this

/-- Witness for C7: resolving Camry in the concrete catalog. -/
theorem list_models_shape_witness :
    findModel (list_models camryCatalog) "Camry" =
      some { name := "Camry", trims := ["LE", "SE", "XLE"] } ∧
    (({ name := "Camry", trims := ["LE", "SE", "XLE"] } : ModelInfo).name = "Camry" ∧
      ({ name := "Camry", trims := ["LE", "SE", "XLE"] } : ModelInfo) ∈
        list_models camryCatalog ∧
      list_models camryCatalog = camryCatalog) :=
  ⟨by decide, list_models_shape camryCatalog "Camry" _ (by decide)⟩

/-- Claim C8: every forecast-value request App issues carries the fixed
horizon years_ahead equal to 5, whatever the preferences and scenario the
user has entered. -/
theorem forecast_horizon_fixed_five (prefs : VehiclePreferences) (sc : Scenario) :
    (forecastRequest prefs sc).years_ahead = 5 := rfl

/-- Counterexample to C9 as stated: typing 0 into the annual miles input
yields the non-empty string 0, which is truthy in JavaScript, so the handler
stores the parsed value 0, not null. -/
theorem scenario_zero_counterexample :
    (scenarioHandleChange initialScenario ScenarioField.annualMiles "0").getField
      ScenarioField.annualMiles = some 0 ∧
    some (0 : ℚ) ≠ (none : Option ℚ) := by
  refine ⟨?_, by simp⟩
  have h1 : parseNatDigits (takeUntilDot ("0" : String).data) = 0 := by decide
  have h2 : parseNatDigits (dropThroughDot ("0" : String).data) = 0 := by decide
  have h3 : (dropThroughDot ("0" : String).data).length = 0 := by decide
  have h0 : parseFloatModel "0" = 0 := by
    unfold parseFloatModel
    rw [h1, h2, h3]
    norm_num
  show scenarioFieldParse "0" = some 0
  unfold scenarioFieldParse
  rw [if_neg (by decide), h0]

/-- Claim C9 as amended: the ScenarioAdjustments handler maps exactly the
empty input string to null; every non-empty input, the numeral 0 included,
is stored as its parsed value, so a literal zero is expressible. -/
theorem scenario_empty_input_null (sc : Scenario) (f : ScenarioField) (v : String) :
    (v = "" → (scenarioHandleChange sc f v).getField f = none) ∧
    (v ≠ "" → (scenarioHandleChange sc f v).getField f = some (parseFloatModel v)) := by
  constructor <;> intro h <;> cases f <;>
    simp [scenarioHandleChange, Scenario.getField, scenarioFieldParse, h]

/-- Witness for C9 as amended: clearing the annual miles input stores null,
and the non-empty input 4 on the fuel price stores its parsed value. -/
theorem scenario_empty_input_null_witness :
    (scenarioHandleChange initialScenario ScenarioField.annualMiles "").getField
      ScenarioField.annualMiles = none ∧
    (scenarioHandleChange initialScenario ScenarioField.fuelPrice "4").getField
      ScenarioField.fuelPrice = some (parseFloatModel "4") :=
  ⟨(scenario_empty_input_null initialScenario ScenarioField.annualMiles "").1 rfl,
    (scenario_empty_input_null initialScenario ScenarioField.fuelPrice "4").2
      (by decide)⟩

/-- Claim C10: the FinancialProfileForm handler coerces a cleared input to
0 and submits on every change, so profiles with a credit score of 0 (outside
300 to 850) or a lease term of 0 (outside 12 to 72) reach the caller with no
error raised at the form boundary. -/
theorem profile_zero_coercion_submitted (p : FinancialProfile) :
    (profileHandleChange p ProfileField.creditScore "").submitted = true ∧
    (profileHandleChange p ProfileField.creditScore "").newData.credit_score = 0 ∧
    (profileHandleChange p ProfileField.creditScore "").newData.credit_score < 300 ∧
    (profileHandleChange p ProfileField.leaseTermMonths "").submitted = true ∧
    (profileHandleChange p ProfileField.leaseTermMonths "").newData.lease_term_months
      = 0 ∧
    (profileHandleChange p ProfileField.leaseTermMonths "").newData.lease_term_months
      < 12 := by
  have h1 : (profileHandleChange p ProfileField.creditScore "").newData.credit_score
      = 0 := rfl
  have h2 : (profileHandleChange p
      ProfileField.leaseTermMonths "").newData.lease_term_months = 0 := rfl
  refine ⟨rfl, h1, ?_, rfl, h2, ?_⟩
  · rw [h1]
    norm_num
  · rw [h2]
    norm_num

end ToyotaCO
